import Mathlib

/-!
Shallow embedding of the canonical field-mapping and catalog-linking engine of
the crypto-exchange-api-catalog repository, together with theorems settling the
frozen claims about it.

Conventions of the embedding:
* SQLite tables become Lean lists held in a `DB` record; list order models the
  rowid scan order (insertion order).
* `mapping_id` is assigned from a monotone counter, so "most recently created"
  is "largest `mappingId`" (SQLite autoincrement rowids are positive and
  increasing, which also makes Python's `if not vendor_id:` truthiness test
  coincide with an `Option` check).
* SQL queries are translated join-by-join; `GROUP BY` groups in first-occurrence
  scan order; `ORDER BY` is modelled as a stable sort (SQLite leaves the order
  of equal keys unspecified, and Python's `list.sort` is stable).
* Python `round(x, 1)` is modelled on rationals as round-half-to-even at one
  decimal; SQLite's `ROUND(x, 1)` as round-half-away-from-zero at one decimal.
* No storage-level constraints are modelled beyond what the scripts themselves
  check: the schema file is not part of the sources under analysis; columns a
  script's INSERT omits take the defaults the spec gives (`is_active = true`,
  `priority = 0`).
-/

namespace CryptoCatalog

/-! ### String and rounding helpers -/

/-- Does `pat` occur as a contiguous sublist of `hay`? -/
def listContainsSub (pat : List Char) : List Char → Bool
  | [] => pat.isEmpty
  | c :: t => pat.isPrefixOf (c :: t) || listContainsSub pat t

/-- Substring test on strings (Python's `pat in hay`). -/
def strContainsSub (hay pat : String) : Bool :=
  listContainsSub pat.toList hay.toList

/-- ASCII lowercasing (Python's `str.lower`), character by character. -/
def strToLower (s : String) : String :=
  String.mk (s.toList.map Char.toLower)

/-- SQLite `hay LIKE '%pat%'`: ASCII case-insensitive containment. -/
def sqlLikeContains (hay pat : String) : Bool :=
  strContainsSub (strToLower hay) (strToLower pat)

/-- The exact value of `num / den * 100` (the percent expression both
coverage computations apply before rounding), as a rational. -/
def percentOf (num den : Nat) : Rat := mkRat (num * 100) den

/-- Python `round(x, 1)`: the nearest multiple of 1/10, ties to even.
Computed on the exact rational `x = x.num / x.den`: `10 * x = n / d`, its
floor is `f`, and the leftover `r / d` is compared with 1/2 via `2r` vs `d`. -/
def roundTenthsEven (x : Rat) : Rat :=
  let n : Int := x.num * 10
  let d : Nat := x.den
  let f : Int := Int.fdiv n d
  let r : Int := n - f * d
  if 2 * r < (d : Int) then mkRat f 10
  else if (d : Int) < 2 * r then mkRat (f + 1) 10
  else if f % 2 = 0 then mkRat f 10 else mkRat (f + 1) 10

/-- SQLite `ROUND(x, 1)`: the nearest multiple of 1/10, ties away from zero.
Computed like `roundTenthsEven`, with the tie sent away from zero. -/
def roundTenthsAway (x : Rat) : Rat :=
  let n : Int := x.num * 10
  let d : Nat := x.den
  let f : Int := Int.fdiv n d
  let r : Int := n - f * d
  if 2 * r < (d : Int) then mkRat f 10
  else if (d : Int) < 2 * r then mkRat (f + 1) 10
  else if 0 ≤ n then mkRat (f + 1) 10 else mkRat f 10

/-! ### Stable sorting (Python `list.sort` and SQL `ORDER BY`) -/

/-- Insert `x` into `l` so that elements with strictly smaller key stay after it;
among equal keys `x` lands after the existing ones (stability). -/
def insertDescBy {α β : Type} [LinearOrder β] (key : α → β) (x : α) : List α → List α
  | [] => [x]
  | y :: ys => if key y < key x then x :: y :: ys else y :: insertDescBy key x ys

/-- Stable sort by `key`, descending (models Python's stable `sort(..., reverse=True)`
and SQL `ORDER BY key DESC` determinized to stability). -/
def sortDescBy {α β : Type} [LinearOrder β] (key : α → β) (l : List α) : List α :=
  l.foldl (fun acc x => insertDescBy key x acc) []

/-! ### Data model (tables of the SQLite store) -/

/-- A row of `vendors`. -/
structure Vendor where
  vendorId : Nat
  vendorName : String
deriving Repr, DecidableEq

/-- A row of `canonical_data_types`. -/
structure CanonicalDataType where
  dataTypeId : Nat
  dataTypeName : String
deriving Repr, DecidableEq

/-- A row of `canonical_fields`. -/
structure CanonicalField where
  canonicalFieldId : Nat
  fieldName : String
deriving Repr, DecidableEq

/-- A row of `data_type_fields` (which canonical fields an entity type requires). -/
structure DataTypeField where
  dataTypeId : Nat
  canonicalFieldId : Nat
deriving Repr, DecidableEq

/-- A row of `rest_endpoints`. -/
structure RestEndpoint where
  endpointId : Nat
  vendorId : Nat
  path : String
  method : String
deriving Repr, DecidableEq

/-- A row of `websocket_channels`. -/
structure WebSocketChannel where
  channelId : Nat
  vendorId : Nat
  channelName : String
deriving Repr, DecidableEq

/-- The `source_type` column. -/
inductive SourceType where
  | rest
  | websocket
deriving Repr, DecidableEq

/-- A row of `field_mappings`. `mappingId` is the autoincrement rowid, so it
also records creation order. -/
structure FieldMapping where
  mappingId : Nat
  vendorId : Nat
  canonicalFieldId : Nat
  sourceType : SourceType
  entityType : String
  vendorFieldPath : String
  endpointId : Option Nat
  channelId : Option Nat
  transformationRule : Option String
  priority : Int
  isActive : Bool
deriving Repr, DecidableEq

/-- The database state: one list per table, in rowid order, plus the next
mapping rowid. -/
structure DB where
  vendors : List Vendor
  canonicalDataTypes : List CanonicalDataType
  canonicalFields : List CanonicalField
  dataTypeFields : List DataTypeField
  restEndpoints : List RestEndpoint
  websocketChannels : List WebSocketChannel
  fieldMappings : List FieldMapping
  nextMappingId : Nat
deriving Repr, DecidableEq

/-! ### update_status.py — ExchangeStatsCollector -/

/-- The rows of the three-way join in `get_total_canonical_ticker_fields`:
`canonical_fields JOIN data_type_fields JOIN canonical_data_types
WHERE data_type_name = 'ticker'`. -/
def tickerFieldJoinRows (db : DB) : List (CanonicalField × DataTypeField) :=
  db.canonicalFields.flatMap fun cf =>
    db.dataTypeFields.flatMap fun dtf =>
      db.canonicalDataTypes.filterMap fun cdt =>
        if cf.canonicalFieldId = dtf.canonicalFieldId ∧
           dtf.dataTypeId = cdt.dataTypeId ∧
           cdt.dataTypeName = "ticker" then some (cf, dtf) else none

/-- `get_total_canonical_ticker_fields`: `SELECT COUNT(*)` over that join. -/
def get_total_canonical_ticker_fields (db : DB) : Nat :=
  (tickerFieldJoinRows db).length

/-- `COUNT(fm.mapping_id)` for one vendor row of the
`vendors LEFT JOIN field_mappings ON vendor_id AND entity_type = 'ticker'` join
(a vendor with no match contributes one all-NULL row, counted as 0). -/
def tickerMappingRowCount (db : DB) (v : Vendor) : Nat :=
  (db.fieldMappings.filter fun fm =>
    fm.vendorId == v.vendorId && fm.entityType == "ticker").length

/-- Deduplicate keeping first occurrences (`GROUP BY` group order is modelled
as first-occurrence scan order; also models `COUNT(DISTINCT ...)`). -/
def dedupKeepFirst {α : Type} [DecidableEq α] (seen : List α) : List α → List α
  | [] => []
  | x :: xs =>
      if x ∈ seen then dedupKeepFirst seen xs
      else x :: dedupKeepFirst (x :: seen) xs

/-- The `GROUP BY v.vendor_name` result of the coverage query, before
`ORDER BY`: one `(vendor_name, COUNT(fm.mapping_id))` pair per distinct vendor
name, in first-occurrence order. -/
def tickerMappingGroups (db : DB) : List (String × Nat) :=
  (dedupKeepFirst [] (db.vendors.map Vendor.vendorName)).map fun name =>
    (name,
      ((db.vendors.filter fun v => v.vendorName == name).map
        (tickerMappingRowCount db)).sum)

/-- `get_exchange_ticker_coverage`: returns `[]` when no canonical ticker
fields are defined; otherwise one `(vendor_name, ticker_mappings,
round(ticker_mappings / total * 100, 1))` triple per vendor name, ordered by
mapping count descending (the query's `ORDER BY ticker_mappings DESC`,
modelled stably). The Python `else 0` guard inside the loop is dead code
because of the early return. -/
def get_exchange_ticker_coverage (db : DB) : List (String × Nat × Rat) :=
  if get_total_canonical_ticker_fields db = 0 then []
  else
    (sortDescBy (fun p => p.2) (tickerMappingGroups db)).map fun p =>
      (p.1, p.2,
        roundTenthsEven (percentOf p.2 (get_total_canonical_ticker_fields db)))

/-- `get_coverage_leaders(limit)`: re-sorts the coverage rows by percent
descending (Python's stable `list.sort`), truncates to `limit`, and keeps
`(vendor_name, coverage_percent)`. -/
def get_coverage_leaders (db : DB) (limit : Nat) : List (String × Rat) :=
  ((sortDescBy (fun r => r.2.2) (get_exchange_ticker_coverage db)).take limit).map
    fun r => (r.1, r.2.2)

/-! ### Shared lookup queries of the mapper scripts -/

/-- `get_vendor_id`: first row of
`SELECT vendor_id FROM vendors WHERE vendor_name = ?`. -/
def get_vendor_id (db : DB) (vendorName : String) : Option Nat :=
  (db.vendors.find? fun v => v.vendorName == vendorName).map Vendor.vendorId

/-- `get_websocket_channel_id`: first row of
`SELECT channel_id FROM websocket_channels WHERE vendor_id = ? AND channel_name = ?`. -/
def get_websocket_channel_id (db : DB) (vendorId : Nat) (channelName : String) :
    Option Nat :=
  (db.websocketChannels.find? fun c =>
    c.vendorId == vendorId && c.channelName == channelName).map
    WebSocketChannel.channelId

/-- `get_canonical_field_id`: first row of
`SELECT canonical_field_id FROM canonical_fields WHERE field_name = ?`. -/
def get_canonical_field_id (db : DB) (fieldName : String) : Option Nat :=
  (db.canonicalFields.find? fun cf => cf.fieldName == fieldName).map
    CanonicalField.canonicalFieldId

/-! ### create_bitmart_mappings.py — BitmartTickerMapper

Transformation rules are carried as their `type` tag only; the scripts
serialize them to JSON strings, which is irrelevant to every claim. -/

/-- The duplicate check of `BitmartTickerMapper.create_field_mapping`:
`WHERE vendor_id = ? AND canonical_field_id = ? AND vendor_field_path = ?
AND channel_id = ?` (a SQL `channel_id = ?` comparison is never satisfied by a
NULL `channel_id`). -/
def bitmartMappingExists (db : DB) (vendorId canonicalFieldId : Nat)
    (vendorFieldPath : String) (channelId : Nat) : Bool :=
  db.fieldMappings.any fun fm =>
    fm.vendorId == vendorId && fm.canonicalFieldId == canonicalFieldId &&
    fm.vendorFieldPath == vendorFieldPath && fm.channelId == some channelId

/-- `BitmartTickerMapper.create_field_mapping`: an already-existing key is a
no-op reported as success; otherwise insert a websocket mapping with the given
priority and `is_active = TRUE`. The `sqlite3.Error` branch is unreachable in
the model, which carries no storage constraint the insert could violate. -/
def bitmart_create_field_mapping (db : DB) (vendorId canonicalFieldId : Nat)
    (vendorFieldPath : String) (channelId : Nat) (entityType : String)
    (transformationRule : Option String) (priority : Int) : DB × Bool :=
  if bitmartMappingExists db vendorId canonicalFieldId vendorFieldPath channelId then
    (db, true)
  else
    ({ db with
        fieldMappings := db.fieldMappings ++
          [{ mappingId := db.nextMappingId
             vendorId := vendorId
             canonicalFieldId := canonicalFieldId
             sourceType := SourceType.websocket
             entityType := entityType
             vendorFieldPath := vendorFieldPath
             endpointId := none
             channelId := some channelId
             transformationRule := transformationRule
             priority := priority
             isActive := true }]
        nextMappingId := db.nextMappingId + 1 }, true)

/-- The mapping table inside `map_bitmart_ticker_fields`:
`(vendor_field_path, canonical_field_name, transformation-rule tag,
entity_type)`, in source order — note `data[].close_24h -> last_price` comes
last, after `data[].timestamp`. -/
def bitmartTickerMappings : List (String × String × String × String) :=
  [ ("data[].symbol", "symbol", "identity", "ticker"),
    ("data[].last_price", "last_price", "string_to_numeric", "ticker"),
    ("data[].best_bid", "bid_price", "string_to_numeric", "ticker"),
    ("data[].best_ask", "ask_price", "string_to_numeric", "ticker"),
    ("data[].best_bid_size", "best_bid_size", "string_to_numeric", "ticker"),
    ("data[].best_ask_size", "best_ask_size", "string_to_numeric", "ticker"),
    ("data[].high_24h", "high_24h", "string_to_numeric", "ticker"),
    ("data[].low_24h", "low_24h", "string_to_numeric", "ticker"),
    ("data[].open_24h", "open_24h", "string_to_numeric", "ticker"),
    ("data[].quote_volume_24h", "volume_24h", "string_to_numeric", "ticker"),
    ("data[].base_volume_24h", "volume_24h", "string_to_numeric", "ticker"),
    ("data[].timestamp", "timestamp", "integer_to_datetime", "ticker"),
    ("data[].close_24h", "last_price", "string_to_numeric", "ticker") ]

/-- One iteration of the `map_bitmart_ticker_fields` loop: a missing canonical
field is counted as failed and skipped; otherwise `create_field_mapping` is
called with `priority = 10`. Returns the new state and whether the iteration
counted as created. -/
def bitmartStep (vendorId channelId : Nat) (db : DB)
    (m : String × String × String × String) : DB × Bool :=
  match get_canonical_field_id db m.2.1 with
  | none => (db, false)
  | some cid =>
      bitmart_create_field_mapping db vendorId cid m.1 channelId m.2.2.2
        (some m.2.2.1) 10

/-- One fold step of the `map_bitmart_ticker_fields` loop: thread the state
and add the created flag to the counter. -/
def bitmartFoldStep (vendorId channelId : Nat) (acc : DB × Nat)
    (m : String × String × String × String) : DB × Nat :=
  ((bitmartStep vendorId channelId acc.1 m).1,
    acc.2 + (if (bitmartStep vendorId channelId acc.1 m).2 then 1 else 0))

/-- The fold of the `map_bitmart_ticker_fields` loop over a batch of mapping
records, accumulating the created count. -/
def bitmartProcess (vendorId channelId : Nat) (db : DB)
    (ms : List (String × String × String × String)) : DB × Nat :=
  ms.foldl (bitmartFoldStep vendorId channelId) (db, 0)

/-- `map_bitmart_ticker_fields`: 0 mappings when the bitmart vendor or its
`spot/ticker` channel is missing; otherwise process the hardcoded batch. -/
def map_bitmart_ticker_fields (db : DB) : DB × Nat :=
  match get_vendor_id db "bitmart" with
  | none => (db, 0)
  | some vendorId =>
      match get_websocket_channel_id db vendorId "spot/ticker" with
      | none => (db, 0)
      | some channelId => bitmartProcess vendorId channelId db bitmartTickerMappings

/-- The field list of the bitmart `--dry-run` branch of `main` (same 13 pairs
as `bitmartTickerMappings` but with `data[].close_24h` before
`data[].timestamp`). -/
def bitmartDryRunList : List (String × String × String) :=
  [ ("data[].symbol", "symbol", "ticker"),
    ("data[].last_price", "last_price", "ticker"),
    ("data[].best_bid", "bid_price", "ticker"),
    ("data[].best_ask", "ask_price", "ticker"),
    ("data[].best_bid_size", "best_bid_size", "ticker"),
    ("data[].best_ask_size", "best_ask_size", "ticker"),
    ("data[].high_24h", "high_24h", "ticker"),
    ("data[].low_24h", "low_24h", "ticker"),
    ("data[].open_24h", "open_24h", "ticker"),
    ("data[].quote_volume_24h", "volume_24h", "ticker"),
    ("data[].base_volume_24h", "volume_24h", "ticker"),
    ("data[].close_24h", "last_price", "ticker"),
    ("data[].timestamp", "timestamp", "ticker") ]

/-! ### create_korbit_mappings.py — KorbitTickerMapper -/

/-- `KorbitTickerMapper.get_websocket_channels`: the vendor's channels whose
name is `LIKE '%ticker%'`. -/
def korbit_get_websocket_channels (db : DB) (vendorId : Nat) :
    List WebSocketChannel :=
  db.websocketChannels.filter fun c =>
    c.vendorId == vendorId && sqlLikeContains c.channelName "ticker"

/-- The korbit proposal table (`propose_mappings`; its `vendor_id` argument is
unused by the source): `(vendor_field_path, canonical_field_name,
transformation-rule tag)`. -/
def korbitProposedMappings : List (String × String × String) :=
  [ ("last", "last_price", "string_to_numeric"),
    ("bid", "bid_price", "string_to_numeric"),
    ("ask", "ask_price", "string_to_numeric"),
    ("open", "open_24h", "string_to_numeric"),
    ("high", "high_24h", "string_to_numeric"),
    ("low", "low_24h", "string_to_numeric"),
    ("volume", "volume_24h", "string_to_numeric"),
    ("timestamp", "timestamp", "ms_to_datetime"),
    ("currency_pair", "symbol", "identity") ]

/-- The duplicate check shared by the korbit and zaif creation loops:
`WHERE vendor_id = ? AND vendor_field_path = ? AND canonical_field_id = ?`. -/
def pathCanonicalMappingExists (db : DB) (vendorId : Nat)
    (vendorFieldPath : String) (canonicalFieldId : Nat) : Bool :=
  db.fieldMappings.any fun fm =>
    fm.vendorId == vendorId && fm.vendorFieldPath == vendorFieldPath &&
    fm.canonicalFieldId == canonicalFieldId

/-- One iteration of the korbit creation loop: skip when the canonical field
name does not resolve or the `(vendor, path, canonical)` key already exists;
otherwise insert a websocket/ticker mapping. The INSERT omits `priority` and
`is_active`; those columns take the schema defaults the spec gives (0 and
true). Returns the new state and whether a row was created. -/
def korbitStep (vendorId channelId : Nat) (db : DB)
    (m : String × String × String) : DB × Bool :=
  match get_canonical_field_id db m.2.1 with
  | none => (db, false)
  | some cid =>
      if pathCanonicalMappingExists db vendorId m.1 cid then (db, false)
      else
        ({ db with
            fieldMappings := db.fieldMappings ++
              [{ mappingId := db.nextMappingId
                 vendorId := vendorId
                 canonicalFieldId := cid
                 sourceType := SourceType.websocket
                 entityType := "ticker"
                 vendorFieldPath := m.1
                 endpointId := none
                 channelId := some channelId
                 transformationRule := some m.2.2
                 priority := 0
                 isActive := true }]
            nextMappingId := db.nextMappingId + 1 }, true)

/-- One fold step of the korbit creation loop. -/
def korbitFoldStep (vendorId channelId : Nat) (acc : DB × Nat)
    (m : String × String × String) : DB × Nat :=
  ((korbitStep vendorId channelId acc.1 m).1,
    acc.2 + (if (korbitStep vendorId channelId acc.1 m).2 then 1 else 0))

/-- The fold of the korbit creation loop, accumulating the created count. -/
def korbitProcess (vendorId channelId : Nat) (db : DB)
    (ms : List (String × String × String)) : DB × Nat :=
  ms.foldl (korbitFoldStep vendorId channelId) (db, 0)

/-- `KorbitTickerMapper.create_mappings`: resolve the korbit vendor, its
`%ticker%` channels and the first channel whose lowercased name contains
`ticker`; in dry-run mode only the proposal decisions are logged and nothing
is stored; otherwise the batch is processed. Returns the state and the
created count (the Python function returns `None`; the count is its
`created_count` log value, 0 on every early return and in dry-run mode). -/
def korbit_create_mappings (db : DB) (dryRun : Bool) : DB × Nat :=
  match get_vendor_id db "korbit" with
  | none => (db, 0)
  | some vendorId =>
      if (korbit_get_websocket_channels db vendorId).isEmpty then (db, 0)
      else
        match (korbit_get_websocket_channels db vendorId).find?
            (fun c => strContainsSub (strToLower c.channelName) "ticker") with
        | none => (db, 0)
        | some ch =>
            if dryRun then (db, 0)
            else korbitProcess vendorId ch.channelId db korbitProposedMappings

/-- The per-proposal decisions the korbit dry run logs:
`(vendor_field_path, canonical_field_name, canonical lookup result)` — a
`some` is reported as a proposed mapping, a `none` as CANONICAL FIELD NOT
FOUND. The dry run performs no already-exists check. -/
def korbitDryRunDecisions (db : DB) : List (String × String × Option Nat) :=
  korbitProposedMappings.map fun m => (m.1, m.2.1, get_canonical_field_id db m.2.1)

/-- Per-record outcomes of the korbit creation loop. -/
inductive MappingOutcome where
  | missingCanonical
  | alreadyExists
  | created
deriving Repr, DecidableEq

/-- The outcome one korbit iteration has on state `db`. -/
def korbitStepOutcome (vendorId : Nat) (db : DB) (m : String × String × String) :
    MappingOutcome :=
  match get_canonical_field_id db m.2.1 with
  | none => MappingOutcome.missingCanonical
  | some cid =>
      if pathCanonicalMappingExists db vendorId m.1 cid then
        MappingOutcome.alreadyExists
      else MappingOutcome.created

/-- The per-record outcomes of a real korbit run over a batch, threading the
evolving state exactly as `korbitProcess` does. -/
def korbitOutcomes (vendorId channelId : Nat) (db : DB) :
    List (String × String × String) → List MappingOutcome
  | [] => []
  | m :: ms =>
      korbitStepOutcome vendorId db m ::
        korbitOutcomes vendorId channelId (korbitStep vendorId channelId db m).1 ms

/-! ### create_zaif_mappings.py — ZaifTickerMapper -/

/-- `ZaifTickerMapper.get_rest_endpoints`: the vendor's GET endpoints whose
path is `LIKE '%ticker%'` or `LIKE '%last_price%'`. -/
def zaif_get_rest_endpoints (db : DB) (vendorId : Nat) : List RestEndpoint :=
  db.restEndpoints.filter fun e =>
    e.vendorId == vendorId && e.method == "GET" &&
    (sqlLikeContains e.path "ticker" || sqlLikeContains e.path "last_price")

/-- The endpoint-classification loop of `ZaifTickerMapper.create_mappings`:
every matching endpoint overwrites its slot, so the last match wins. Returns
`(ticker_endpoint_id, last_price_endpoint_id)`. -/
def zaifClassifyEndpoints (endpoints : List RestEndpoint) :
    Option Nat × Option Nat :=
  endpoints.foldl
    (fun acc e =>
      if strContainsSub e.path "/api/1/ticker/{currency_pair}" then
        (some e.endpointId, acc.2)
      else if strContainsSub e.path "/api/1/last_price/{currency_pair}" then
        (acc.1, some e.endpointId)
      else acc)
    (none, none)

/-- The zaif proposal table (`propose_mappings`). -/
def zaifProposedMappings : List (String × String × String) :=
  [ ("last", "last_price", "identity"),
    ("high", "high_24h", "identity"),
    ("low", "low_24h", "identity"),
    ("volume", "volume_24h", "identity"),
    ("bid", "bid_price", "identity"),
    ("ask", "ask_price", "identity"),
    ("last_price", "last_price", "identity") ]

/-- One iteration of the zaif creation loop. The `last_price` vendor field is
routed to `last_price_endpoint_id` — which the source never checks for
presence, so when that endpoint is absent the row is inserted with a NULL
`endpoint_id`. All other fields go to the ticker endpoint. The INSERT omits
`priority` and `is_active` (schema defaults 0 and true, per the spec). -/
def zaifStep (vendorId tickerEndpointId : Nat) (lastPriceEndpointId : Option Nat)
    (db : DB) (m : String × String × String) : DB × Bool :=
  match get_canonical_field_id db m.2.1 with
  | none => (db, false)
  | some cid =>
      let endpointId : Option Nat :=
        if m.1 == "last_price" then lastPriceEndpointId else some tickerEndpointId
      if pathCanonicalMappingExists db vendorId m.1 cid then (db, false)
      else
        ({ db with
            fieldMappings := db.fieldMappings ++
              [{ mappingId := db.nextMappingId
                 vendorId := vendorId
                 canonicalFieldId := cid
                 sourceType := SourceType.rest
                 entityType := "ticker"
                 vendorFieldPath := m.1
                 endpointId := endpointId
                 channelId := none
                 transformationRule := some m.2.2
                 priority := 0
                 isActive := true }]
            nextMappingId := db.nextMappingId + 1 }, true)

/-- One fold step of the zaif creation loop. -/
def zaifFoldStep (vendorId tickerEndpointId : Nat)
    (lastPriceEndpointId : Option Nat) (acc : DB × Nat)
    (m : String × String × String) : DB × Nat :=
  ((zaifStep vendorId tickerEndpointId lastPriceEndpointId acc.1 m).1,
    acc.2 + (if (zaifStep vendorId tickerEndpointId lastPriceEndpointId acc.1 m).2 then 1 else 0))

/-- The fold of the zaif creation loop, accumulating the created count. -/
def zaifProcess (vendorId tickerEndpointId : Nat)
    (lastPriceEndpointId : Option Nat) (db : DB)
    (ms : List (String × String × String)) : DB × Nat :=
  ms.foldl (zaifFoldStep vendorId tickerEndpointId lastPriceEndpointId) (db, 0)

/-- `ZaifTickerMapper.create_mappings`: resolve the zaif vendor, its
ticker/last_price GET endpoints and the main ticker endpoint; dry-run stores
nothing; otherwise process the batch. -/
def zaif_create_mappings (db : DB) (dryRun : Bool) : DB × Nat :=
  match get_vendor_id db "zaif" with
  | none => (db, 0)
  | some vendorId =>
      let endpoints := zaif_get_rest_endpoints db vendorId
      if endpoints.isEmpty then (db, 0)
      else
        let classified := zaifClassifyEndpoints endpoints
        match classified.1 with
        | none => (db, 0)
        | some tickerEndpointId =>
            if dryRun then (db, 0)
            else zaifProcess vendorId tickerEndpointId classified.2 db zaifProposedMappings

/-! ### create_rest_mappings_demo.py — verify_mappings coverage query -/

/-- Distinct count (`COUNT(DISTINCT ...)`). -/
def countDistinct (l : List Nat) : Nat := (dedupKeepFirst [] l).length

/-- The inner-join rows `(dt, dtf, cf)` of the demo coverage query restricted
by its `WHERE dt.data_type_name = 'ticker'`. -/
def demoTickerJoinRows (db : DB) :
    List (CanonicalDataType × DataTypeField × CanonicalField) :=
  db.canonicalDataTypes.flatMap fun dt =>
    db.dataTypeFields.flatMap fun dtf =>
      db.canonicalFields.filterMap fun cf =>
        if dt.dataTypeId = dtf.dataTypeId ∧
           dtf.canonicalFieldId = cf.canonicalFieldId ∧
           dt.dataTypeName = "ticker" then some (dt, dtf, cf) else none

/-- `COUNT(DISTINCT cf.canonical_field_id)` within the group of one ticker
data-type id. -/
def demoFieldsDefined (db : DB) (dtid : Nat) : Nat :=
  countDistinct ((demoTickerJoinRows db).filterMap fun r =>
    if r.1.dataTypeId = dtid then some r.2.2.canonicalFieldId else none)

/-- Whether an active rest ticker mapping of the vendor hits the given
canonical field (the demo query's LEFT JOIN condition). -/
def demoHasActiveRestMapping (db : DB) (vid : Nat) (entityType : String)
    (cfid : Nat) : Bool :=
  db.fieldMappings.any fun fm =>
    fm.vendorId == vid && fm.canonicalFieldId == cfid && fm.isActive &&
    fm.entityType == entityType && fm.sourceType == SourceType.rest

/-- `COUNT(DISTINCT fm.canonical_field_id)` within one (vendor, ticker
data-type) group: distinct canonical fields of the group that have at least
one matching active rest mapping (NULLs of the LEFT JOIN are not counted). -/
def demoFieldsMapped (db : DB) (vid dtid : Nat) : Nat :=
  countDistinct ((demoTickerJoinRows db).filterMap fun r =>
    if r.1.dataTypeId = dtid ∧
       demoHasActiveRestMapping db vid r.1.dataTypeName r.2.2.canonicalFieldId = true
    then some r.2.2.canonicalFieldId else none)

/-- Stable insertion keeping elements with strictly larger key after `x`;
among equal keys `x` lands after the existing ones. -/
def insertAscBy {α β : Type} [LinearOrder β] (key : α → β) (x : α) :
    List α → List α
  | [] => [x]
  | y :: ys => if key x < key y then x :: y :: ys else y :: insertAscBy key x ys

/-- Stable sort by `key`, ascending. -/
def sortAscBy {α β : Type} [LinearOrder β] (key : α → β) (l : List α) : List α :=
  l.foldl (fun acc x => insertAscBy key x acc) []

/-- The ticker-coverage rows of `RestTickerMapper.verify_mappings`:
`(vendor_name, fields_defined, fields_mapped, ROUND(mapped * 100.0 / defined,
1))`, one row per `(vendor, ticker data type)` group — a group exists only
when the ticker data type has at least one associated canonical field —
ordered by vendor name ascending. Vendor rowids are unique, so grouping by
`v.vendor_id` is iteration over the vendors table. -/
def demo_verify_ticker_coverage (db : DB) : List (String × Nat × Nat × Rat) :=
  let tickerDtIds := dedupKeepFirst [] ((demoTickerJoinRows db).map fun r => r.1.dataTypeId)
  let rows := db.vendors.flatMap fun v =>
    tickerDtIds.map fun dtid =>
      (v.vendorName, demoFieldsDefined db dtid, demoFieldsMapped db v.vendorId dtid)
  (sortAscBy (fun r => r.1) rows).map fun r =>
    (r.1, r.2.1, r.2.2, roundTenthsAway (percentOf r.2.2 r.2.1))

/-! ### The Mapping Resolver's resolve operation -/

/-- The active mappings competing for one canonical field. -/
def resolveCandidates (db : DB) (vendorId : Nat) (entityType : String)
    (sourceType : SourceType) (canonicalFieldId : Nat) : List FieldMapping :=
  db.fieldMappings.filter fun fm =>
    fm.vendorId == vendorId && fm.entityType == entityType &&
    fm.sourceType == sourceType && fm.canonicalFieldId == canonicalFieldId &&
    fm.isActive

/-- "`a` wins over (or equals) `b`": strictly higher priority, or equal
priority and created no earlier. `resolveField` returns a candidate that
stands in this relation to every candidate. -/
def mappingBeats (a b : FieldMapping) : Prop :=
  b.priority < a.priority ∨ (b.priority = a.priority ∧ b.mappingId ≤ a.mappingId)

/-- The selection step of `resolveField`: replace the current best with `fm`
exactly when `fm` has strictly higher priority, or equal priority and a
strictly larger rowid (more recently created). -/
def chooseBetter (best : Option FieldMapping) (fm : FieldMapping) :
    Option FieldMapping :=
  match best with
  | none => some fm
  | some b =>
      if b.priority < fm.priority ∨
         (b.priority = fm.priority ∧ b.mappingId < fm.mappingId) then some fm
      else some b

/-- Modelled from the spec: the Mapping Resolver's `resolve` operation (§4.2)
is repository code that is not among the sources under src/ (only the
registration scripts are), so it is modelled from the spec's words: for a
canonical field, select the highest-priority active mapping matching the
vendor, entity type and source type, ties broken by most-recently-created
(largest rowid). -/
def resolveField (db : DB) (vendorId : Nat) (entityType : String)
    (sourceType : SourceType) (canonicalFieldId : Nat) : Option FieldMapping :=
  (resolveCandidates db vendorId entityType sourceType canonicalFieldId).foldl
    chooseBetter none

/-- Modelled from the spec: the canonical fields required by an entity type
via `DataTypeField` (§4.2; the association tables are in the store, the
`resolve` consumer is not under src/). -/
def requiredFieldIds (db : DB) (entityType : String) : List Nat :=
  dedupKeepFirst [] (db.dataTypeFields.filterMap fun dtf =>
    if db.canonicalDataTypes.any fun dt =>
         dt.dataTypeId == dtf.dataTypeId && dt.dataTypeName == entityType
    then some dtf.canonicalFieldId else none)

/-- Modelled from the spec: `resolve(vendorId, entityType, sourceType)`
produces, for each required canonical field, the winning mapping or `none`
(unmapped fields are reported, not an error). -/
def resolve (db : DB) (vendorId : Nat) (entityType : String)
    (sourceType : SourceType) : List (Nat × Option FieldMapping) :=
  (requiredFieldIds db entityType).map fun cid =>
    (cid, resolveField db vendorId entityType sourceType cid)

/-! ### Deactivation (the `is_active = false` UPDATE of the data model) -/

/-- Set `is_active = false` on the mapping with the given rowid; the row is
updated in place, not deleted. -/
def deactivateMapping (db : DB) (mid : Nat) : DB :=
  { db with
    fieldMappings := db.fieldMappings.map fun fm =>
      if fm.mappingId = mid then { fm with isActive := false } else fm }

/-- The number of stored rows matching the bitmart duplicate-check key
(the predicate of `bitmartMappingExists`). -/
def bitmartKeyCount (db : DB) (vendorId canonicalFieldId : Nat)
    (vendorFieldPath : String) (channelId : Nat) : Nat :=
  (db.fieldMappings.filter fun fm =>
    fm.vendorId == vendorId && fm.canonicalFieldId == canonicalFieldId &&
    fm.vendorFieldPath == vendorFieldPath && fm.channelId == some channelId).length

/-! ### Concrete database states used by witnesses and counterexamples -/

/-- A seeded catalog for the bitmart script: the bitmart vendor, its
`spot/ticker` channel, the ticker data type and the eleven canonical fields
the script's mapping table names. -/
def dbBitmart : DB :=
  { vendors := [⟨1, "bitmart"⟩]
    canonicalDataTypes := [⟨1, "ticker"⟩]
    canonicalFields :=
      [⟨1, "symbol"⟩, ⟨2, "last_price"⟩, ⟨3, "bid_price"⟩, ⟨4, "ask_price"⟩,
       ⟨5, "best_bid_size"⟩, ⟨6, "best_ask_size"⟩, ⟨7, "high_24h"⟩,
       ⟨8, "low_24h"⟩, ⟨9, "open_24h"⟩, ⟨10, "volume_24h"⟩, ⟨11, "timestamp"⟩]
    dataTypeFields :=
      [⟨1, 1⟩, ⟨1, 2⟩, ⟨1, 3⟩, ⟨1, 4⟩, ⟨1, 5⟩, ⟨1, 6⟩, ⟨1, 7⟩, ⟨1, 8⟩,
       ⟨1, 9⟩, ⟨1, 10⟩, ⟨1, 11⟩]
    restEndpoints := []
    websocketChannels := [⟨1, 1, "spot/ticker"⟩]
    fieldMappings := []
    nextMappingId := 1 }

/-- A seeded catalog for the korbit script in which only the `last_price`
canonical field exists and the `(korbit, "last", last_price)` mapping is
already stored. -/
def dbKorbitPre : DB :=
  { vendors := [⟨1, "korbit"⟩]
    canonicalDataTypes := [⟨1, "ticker"⟩]
    canonicalFields := [⟨1, "last_price"⟩]
    dataTypeFields := [⟨1, 1⟩]
    restEndpoints := []
    websocketChannels := [⟨1, 1, "ticker"⟩]
    fieldMappings :=
      [{ mappingId := 1, vendorId := 1, canonicalFieldId := 1
         sourceType := SourceType.websocket, entityType := "ticker"
         vendorFieldPath := "last", endpointId := none, channelId := some 1
         transformationRule := some "string_to_numeric", priority := 0
         isActive := true }]
    nextMappingId := 2 }

/-- A seeded catalog for the zaif script: the main ticker endpoint exists but
there is no `last_price` endpoint. -/
def dbZaif : DB :=
  { vendors := [⟨1, "zaif"⟩]
    canonicalDataTypes := [⟨1, "ticker"⟩]
    canonicalFields :=
      [⟨1, "last_price"⟩, ⟨2, "high_24h"⟩, ⟨3, "low_24h"⟩, ⟨4, "volume_24h"⟩,
       ⟨5, "bid_price"⟩, ⟨6, "ask_price"⟩]
    dataTypeFields := [⟨1, 1⟩, ⟨1, 2⟩, ⟨1, 3⟩, ⟨1, 4⟩, ⟨1, 5⟩, ⟨1, 6⟩]
    restEndpoints := [⟨1, 1, "/api/1/ticker/{currency_pair}", "GET"⟩]
    websocketChannels := []
    fieldMappings := []
    nextMappingId := 1 }

/-- One canonical ticker field and a vendor with two active ticker mapping
rows to that same field. -/
def dbTwoRows : DB :=
  { vendors := [⟨1, "vex"⟩]
    canonicalDataTypes := [⟨1, "ticker"⟩]
    canonicalFields := [⟨1, "last_price"⟩]
    dataTypeFields := [⟨1, 1⟩]
    restEndpoints := []
    websocketChannels := [⟨1, 1, "ticker"⟩]
    fieldMappings :=
      [{ mappingId := 1, vendorId := 1, canonicalFieldId := 1
         sourceType := SourceType.websocket, entityType := "ticker"
         vendorFieldPath := "a", endpointId := none, channelId := some 1
         transformationRule := none, priority := 0, isActive := true },
       { mappingId := 2, vendorId := 1, canonicalFieldId := 1
         sourceType := SourceType.websocket, entityType := "ticker"
         vendorFieldPath := "b", endpointId := none, channelId := some 1
         transformationRule := none, priority := 0, isActive := true }]
    nextMappingId := 3 }

/-- A vendor present but no canonical ticker fields defined at all. -/
def dbNoFields : DB :=
  { vendors := [⟨1, "zaif"⟩]
    canonicalDataTypes := []
    canonicalFields := []
    dataTypeFields := []
    restEndpoints := []
    websocketChannels := []
    fieldMappings := []
    nextMappingId := 1 }

/-- One canonical ticker field and a vendor with exactly one active ticker
mapping row to it. -/
def dbOneRow : DB :=
  { vendors := [⟨1, "vex"⟩]
    canonicalDataTypes := [⟨1, "ticker"⟩]
    canonicalFields := [⟨1, "last_price"⟩]
    dataTypeFields := [⟨1, 1⟩]
    restEndpoints := []
    websocketChannels := [⟨1, 1, "ticker"⟩]
    fieldMappings :=
      [{ mappingId := 1, vendorId := 1, canonicalFieldId := 1
         sourceType := SourceType.websocket, entityType := "ticker"
         vendorFieldPath := "a", endpointId := none, channelId := some 1
         transformationRule := none, priority := 0, isActive := true }]
    nextMappingId := 2 }

/-- Two vendors with equal (zero) coverage, stored in the order
`zeta`, `alpha` — reverse alphabetical. -/
def dbTieOrder : DB :=
  { vendors := [⟨1, "zeta"⟩, ⟨2, "alpha"⟩]
    canonicalDataTypes := [⟨1, "ticker"⟩]
    canonicalFields := [⟨1, "last_price"⟩]
    dataTypeFields := [⟨1, 1⟩]
    restEndpoints := []
    websocketChannels := []
    fieldMappings := []
    nextMappingId := 1 }

/-- The row the bitmart script stores thirteenth (and last): the
`data[].close_24h -> last_price` alternative mapping, at priority 10. -/
def bitmartClose24hRow : FieldMapping :=
  { mappingId := 13, vendorId := 1, canonicalFieldId := 2
    sourceType := SourceType.websocket, entityType := "ticker"
    vendorFieldPath := "data[].close_24h", endpointId := none, channelId := some 1
    transformationRule := some "string_to_numeric", priority := 10
    isActive := true }

/-! ### Helper lemmas: stable sorting -/

theorem mem_insertDescBy {α β : Type} [LinearOrder β] (key : α → β) (x a : α)
    (l : List α) : a ∈ insertDescBy key x l ↔ a = x ∨ a ∈ l := by
  induction l with
  | nil => simp [insertDescBy]
  | cons y ys ih =>
      simp only [insertDescBy]
      split
      · simp [List.mem_cons]
      · simp only [List.mem_cons, ih]
        tauto

theorem mem_sortDescBy_foldl {α β : Type} [LinearOrder β] (key : α → β)
    (l : List α) : ∀ (acc : List α) (a : α),
      a ∈ l.foldl (fun acc x => insertDescBy key x acc) acc ↔ a ∈ acc ∨ a ∈ l := by
  induction l with
  | nil => simp
  | cons y ys ih =>
      intro acc a
      simp only [List.foldl_cons, ih, mem_insertDescBy, List.mem_cons]
      tauto

theorem mem_sortDescBy {α β : Type} [LinearOrder β] (key : α → β) (l : List α)
    (a : α) : a ∈ sortDescBy key l ↔ a ∈ l := by
  simp [sortDescBy, mem_sortDescBy_foldl]

theorem pairwise_insertDescBy {α β : Type} [LinearOrder β] (key : α → β) (x : α)
    (l : List α) (h : l.Pairwise fun a b => key b ≤ key a) :
    (insertDescBy key x l).Pairwise fun a b => key b ≤ key a := by
  induction l with
  | nil => simp [insertDescBy]
  | cons y ys ih =>
      rcases List.pairwise_cons.mp h with ⟨hy, hys⟩
      simp only [insertDescBy]
      split
      · rename_i hlt
        refine List.pairwise_cons.mpr ⟨?_, h⟩
        intro z hz
        rcases List.mem_cons.mp hz with rfl | hz2
        · exact le_of_lt hlt
        · exact le_trans (hy z hz2) (le_of_lt hlt)
      · rename_i hnlt
        refine List.pairwise_cons.mpr ⟨?_, ih hys⟩
        intro z hz
        rcases (mem_insertDescBy key x z ys).mp hz with rfl | hz2
        · exact le_of_not_lt hnlt
        · exact hy z hz2

theorem pairwise_sortDescBy_foldl {α β : Type} [LinearOrder β] (key : α → β)
    (l : List α) : ∀ acc : List α, (acc.Pairwise fun a b => key b ≤ key a) →
      (l.foldl (fun acc x => insertDescBy key x acc) acc).Pairwise
        fun a b => key b ≤ key a := by
  induction l with
  | nil => intro acc h; simpa using h
  | cons y ys ih => intro acc h; exact ih _ (pairwise_insertDescBy key y acc h)

theorem pairwise_sortDescBy {α β : Type} [LinearOrder β] (key : α → β)
    (l : List α) :
    (sortDescBy key l).Pairwise fun a b => key b ≤ key a :=
  pairwise_sortDescBy_foldl key l [] (by simp)

/-! ### Helper lemmas: first-occurrence deduplication -/

theorem mem_dedupKeepFirst {α : Type} [DecidableEq α] (a : α) (l : List α) :
    ∀ seen : List α, a ∈ dedupKeepFirst seen l ↔ a ∈ l ∧ a ∉ seen := by
  induction l with
  | nil => intro seen; simp [dedupKeepFirst]
  | cons x xs ih =>
      intro seen
      simp only [dedupKeepFirst]
      split
      · rename_i hx
        rw [ih seen, List.mem_cons]
        constructor
        · rintro ⟨h1, h2⟩; exact ⟨Or.inr h1, h2⟩
        · rintro ⟨h1 | h1, h2⟩
          · subst h1; exact absurd hx h2
          · exact ⟨h1, h2⟩
      · rename_i hx
        simp only [List.mem_cons, ih (x :: seen)]
        constructor
        · rintro (rfl | ⟨h1, h2⟩)
          · exact ⟨Or.inl rfl, hx⟩
          · exact ⟨Or.inr h1, fun hs => h2 (Or.inr hs)⟩
        · rintro ⟨h1 | h1, h2⟩
          · exact Or.inl h1
          · rcases eq_or_ne a x with rfl | hne
            · exact Or.inl rfl
            · refine Or.inr ⟨h1, ?_⟩
              rintro (rfl | hs)
              · exact hne rfl
              · exact h2 hs

theorem nodup_dedupKeepFirst {α : Type} [DecidableEq α] (l : List α) :
    ∀ seen : List α, (dedupKeepFirst seen l).Nodup := by
  induction l with
  | nil => intro seen; simp [dedupKeepFirst]
  | cons x xs ih =>
      intro seen
      simp only [dedupKeepFirst]
      split
      · exact ih seen
      · refine List.nodup_cons.mpr ⟨?_, ih (x :: seen)⟩
        intro hx
        exact ((mem_dedupKeepFirst x xs (x :: seen)).mp hx).2 (List.mem_cons_self x seen)

theorem dedupKeepFirst_eq_self {α : Type} [DecidableEq α] (l : List α) :
    ∀ seen : List α, l.Nodup → (∀ a ∈ l, a ∉ seen) → dedupKeepFirst seen l = l := by
  induction l with
  | nil => intro seen _ _; rfl
  | cons x xs ih =>
      intro seen hnd hdisj
      simp only [dedupKeepFirst]
      rw [if_neg (hdisj x (List.mem_cons_self x xs))]
      congr 1
      refine ih (x :: seen) (List.nodup_cons.mp hnd).2 ?_
      intro a ha hmem
      rcases List.mem_cons.mp hmem with rfl | hs
      · exact (List.nodup_cons.mp hnd).1 ha
      · exact hdisj a (List.mem_cons_of_mem x ha) hs

/-! ### Helper lemmas: the coverage grouping -/

theorem filter_name_eq_single (v : Vendor) (l : List Vendor) (hv : v ∈ l)
    (hnd : (l.map Vendor.vendorName).Nodup) :
    l.filter (fun w => w.vendorName == v.vendorName) = [v] := by
  induction l with
  | nil => exact absurd hv (List.not_mem_nil v)
  | cons u us ih =>
      rw [List.map_cons, List.nodup_cons] at hnd
      rcases List.mem_cons.mp hv with rfl | hv2
      · rw [List.filter_cons, if_pos (by simp)]
        have hnil : us.filter (fun w => w.vendorName == v.vendorName) = [] := by
          rw [List.filter_eq_nil_iff]
          intro a ha
          simp only [beq_iff_eq]
          intro heq
          exact hnd.1 (heq ▸ List.mem_map_of_mem Vendor.vendorName ha)
        rw [hnil]
      · have hne : (u.vendorName == v.vendorName) = false := by
          simp only [beq_eq_false_iff_ne, ne_eq]
          intro heq
          exact hnd.1 (heq ▸ List.mem_map_of_mem Vendor.vendorName hv2)
        rw [List.filter_cons, if_neg (by simp [hne])]
        exact ih hv2 hnd.2

theorem mem_tickerMappingGroups (db : DB) (v : Vendor) (hv : v ∈ db.vendors)
    (hnd : (db.vendors.map Vendor.vendorName).Nodup) :
    (v.vendorName, tickerMappingRowCount db v) ∈ tickerMappingGroups db := by
  unfold tickerMappingGroups
  rw [dedupKeepFirst_eq_self _ [] hnd (by intro a _; simp)]
  refine List.mem_map.mpr ⟨v.vendorName, List.mem_map_of_mem Vendor.vendorName hv, ?_⟩
  rw [filter_name_eq_single v db.vendors hv hnd]
  simp

/-! ### C3 — coverage semantics -/

/-- C3, counterexample: with one required canonical ticker field and two
ticker mapping rows to that same field, `get_exchange_ticker_coverage`
reports `fields_mapped = 2` and `coverage_percent = 200.0 > 100` — it counts
raw rows, not distinct required mapped fields. -/
theorem claim_C3_counterexample :
    get_exchange_ticker_coverage dbTwoRows = [("vex", 2, 200)] ∧
    get_total_canonical_ticker_fields dbTwoRows = 1 ∧
    (100 : Rat) < 200 := by decide

/-- C3 (amended): for a vendor (under unique vendor names), the coverage row
reported for it carries `fields_mapped` equal to the raw number of its
`field_mappings` rows with `entity_type = 'ticker'` — irrespective of
`is_active`, of duplicate canonical fields and of the `DataTypeField`
association — and `coverage_percent = round(rows / fields_defined * 100, 1)`,
which can exceed 100 (witnessed by the 200.0 state). -/
theorem claim_C3_amended :
    (∀ (db : DB) (v : Vendor), v ∈ db.vendors →
       (db.vendors.map Vendor.vendorName).Nodup →
       get_total_canonical_ticker_fields db ≠ 0 →
       (v.vendorName, tickerMappingRowCount db v,
         roundTenthsEven (percentOf (tickerMappingRowCount db v)
           (get_total_canonical_ticker_fields db))) ∈
         get_exchange_ticker_coverage db) ∧
    get_exchange_ticker_coverage dbTwoRows = [("vex", 2, 200)] := by
  constructor
  · intro db v hv hnd htot
    simp only [get_exchange_ticker_coverage, if_neg htot]
    have h2 : (v.vendorName, tickerMappingRowCount db v) ∈
        sortDescBy (fun p : String × Nat => p.2) (tickerMappingGroups db) :=
      (mem_sortDescBy _ _ _).mpr (mem_tickerMappingGroups db v hv hnd)
    exact List.mem_map.mpr ⟨_, h2, rfl⟩
  · decide

/-- C3, witness for the amended theorem at the two-row state. -/
theorem claim_C3_witness :
    (Vendor.vendorName ⟨1, "vex"⟩, tickerMappingRowCount dbTwoRows ⟨1, "vex"⟩,
      roundTenthsEven (percentOf (tickerMappingRowCount dbTwoRows ⟨1, "vex"⟩)
        (get_total_canonical_ticker_fields dbTwoRows))) ∈
      get_exchange_ticker_coverage dbTwoRows :=
  claim_C3_amended.1 dbTwoRows ⟨1, "vex"⟩ (by decide) (by decide) (by decide)

/-! ### C4 — division-by-zero guard -/

/-- C4, counterexample: with a vendor present but zero canonical ticker
fields defined, `get_exchange_ticker_coverage` returns the empty list — the
vendor gets no `(fields_mapped = 0, coverage_percent = 0.0)` row at all. -/
theorem claim_C4_counterexample :
    get_exchange_ticker_coverage dbNoFields = [] ∧
    dbNoFields.vendors = [⟨1, "zaif"⟩] := by decide

/-- C4 (amended): when zero canonical ticker fields are defined the coverage
computation returns the empty list (no exception, but also no per-vendor
zero rows); otherwise every reported row satisfies
`coverage_percent = round(fields_mapped / fields_defined * 100, 1)`. -/
theorem claim_C4_amended (db : DB) :
    (get_total_canonical_ticker_fields db = 0 →
      get_exchange_ticker_coverage db = []) ∧
    (get_total_canonical_ticker_fields db ≠ 0 →
      ∀ r ∈ get_exchange_ticker_coverage db,
        r.2.2 = roundTenthsEven (percentOf r.2.1
          (get_total_canonical_ticker_fields db))) := by
  constructor
  · intro h
    simp [get_exchange_ticker_coverage, h]
  · intro h r hr
    simp only [get_exchange_ticker_coverage, if_neg h] at hr
    rcases List.mem_map.mp hr with ⟨p, _, rfl⟩
    rfl

/-- C4, witness: the guard branch at the zero-field state and the formula at
the two-row state. -/
theorem claim_C4_witness :
    get_exchange_ticker_coverage dbNoFields = [] ∧
    (200 : Rat) =
      roundTenthsEven (percentOf 2 (get_total_canonical_ticker_fields dbTwoRows)) :=
  ⟨(claim_C4_amended dbNoFields).1 (by decide),
   (claim_C4_amended dbTwoRows).2 (by decide) ("vex", 2, 200) (by decide)⟩

/-! ### C5 — coverage monotonicity and deactivation -/

/-- C5, counterexample: deactivating the only mapping row (an in-place
`is_active = false` update) leaves the coverage output unchanged — the
coverage count ignores `is_active`, so it does not decrease back. -/
theorem claim_C5_counterexample :
    get_exchange_ticker_coverage dbOneRow = [("vex", 1, 100)] ∧
    get_exchange_ticker_coverage (deactivateMapping dbOneRow 1) = [("vex", 1, 100)] ∧
    (deactivateMapping dbOneRow 1).fieldMappings.map FieldMapping.isActive = [false] := by
  decide

/-- C5 (amended): appending any ticker mapping row for the vendor (active or
not, previously mapped canonical field or not) increases its `fields_mapped`
row count by exactly one; deactivating a mapping changes neither the count
nor the number of stored rows — `is_active` is ignored by the coverage
computation, and deactivation deletes nothing. -/
theorem claim_C5_amended :
    (∀ (db : DB) (v : Vendor) (fm : FieldMapping),
       fm.vendorId = v.vendorId → fm.entityType = "ticker" →
       tickerMappingRowCount { db with fieldMappings := db.fieldMappings ++ [fm] } v =
         tickerMappingRowCount db v + 1) ∧
    (∀ (db : DB) (v : Vendor) (mid : Nat),
       tickerMappingRowCount (deactivateMapping db mid) v = tickerMappingRowCount db v) ∧
    (∀ (db : DB) (mid : Nat),
       (deactivateMapping db mid).fieldMappings.length = db.fieldMappings.length) := by
  refine ⟨?_, ?_, ?_⟩
  · intro db v fm h1 h2
    simp [tickerMappingRowCount, List.filter_append, h1, h2]
  · intro db v mid
    simp only [tickerMappingRowCount, deactivateMapping,
      ← List.countP_eq_length_filter, List.countP_map]
    refine List.countP_congr ?_
    intro fm _
    by_cases h : fm.mappingId = mid <;> simp [h, Function.comp]
  · intro db mid
    simp [deactivateMapping]

/-- C5, witness for the amended theorem at the one-row state. -/
theorem claim_C5_witness :
    tickerMappingRowCount
      { dbOneRow with fieldMappings := dbOneRow.fieldMappings ++
          [{ mappingId := 2, vendorId := 1, canonicalFieldId := 1
             sourceType := SourceType.websocket, entityType := "ticker"
             vendorFieldPath := "b", endpointId := none, channelId := some 1
             transformationRule := none, priority := 0, isActive := true }] }
      ⟨1, "vex"⟩ =
      tickerMappingRowCount dbOneRow ⟨1, "vex"⟩ + 1 :=
  claim_C5_amended.1 dbOneRow ⟨1, "vex"⟩ _ (by decide) (by decide)

/-! ### C6 — deterministic leaders ordering -/

/-- C6, counterexample: two vendors with equal coverage stored in the order
`zeta`, `alpha` come out of `get_coverage_leaders` in that stored order, not
in vendor-name ascending order — no name tie-break exists in the code. -/
theorem claim_C6_counterexample :
    get_coverage_leaders dbTieOrder 5 = [("zeta", 0), ("alpha", 0)] ∧
    get_coverage_leaders dbTieOrder 5 ≠ [("alpha", 0), ("zeta", 0)] := by decide

/-- C6 (amended): `get_coverage_leaders` returns at most `limit` vendors
sorted by coverage percent descending; the order among equal percents is
inherited from the underlying query result (mapping-count order, then stored
vendor order), with no vendor-name tie-break. -/
theorem claim_C6_amended (db : DB) (limit : Nat) :
    (get_coverage_leaders db limit).length ≤ limit ∧
    (get_coverage_leaders db limit).Pairwise fun a b => b.2 ≤ a.2 := by
  constructor
  · calc (get_coverage_leaders db limit).length
        = ((sortDescBy (fun r : String × Nat × Rat => r.2.2)
            (get_exchange_ticker_coverage db)).take limit).length := by
          simp [get_coverage_leaders]
      _ ≤ limit := List.length_take_le limit _
  · have hp := (pairwise_sortDescBy (fun r : String × Nat × Rat => r.2.2)
      (get_exchange_ticker_coverage db)).sublist (List.take_sublist limit _)
    exact hp.map (fun r : String × Nat × Rat => (r.1, r.2.2)) (fun a b h => h)

/-! ### Helper lemmas: the mapper steps preserve the reference tables -/

theorem get_canonical_field_id_congr (db1 db2 : DB)
    (h : db1.canonicalFields = db2.canonicalFields) (s : String) :
    get_canonical_field_id db1 s = get_canonical_field_id db2 s := by
  unfold get_canonical_field_id
  rw [h]

theorem korbitStep_canonicalFields (vid chid : Nat) (db : DB)
    (m : String × String × String) :
    ((korbitStep vid chid db m).1).canonicalFields = db.canonicalFields := by
  unfold korbitStep
  cases get_canonical_field_id db m.2.1 with
  | none => rfl
  | some cid =>
      by_cases he : pathCanonicalMappingExists db vid m.1 cid = true
      · simp [he]
      · simp [he]

theorem bitmartStep_canonicalFields (vid chid : Nat) (db : DB)
    (m : String × String × String × String) :
    ((bitmartStep vid chid db m).1).canonicalFields = db.canonicalFields := by
  unfold bitmartStep bitmart_create_field_mapping
  cases get_canonical_field_id db m.2.1 with
  | none => rfl
  | some cid =>
      by_cases he : bitmartMappingExists db vid cid m.1 chid = true
      · simp [he]
      · simp [he]

theorem korbitFold_canonicalFields (vid chid : Nat)
    (ms : List (String × String × String)) :
    ∀ acc : DB × Nat,
      ((ms.foldl (korbitFoldStep vid chid) acc).1).canonicalFields =
        acc.1.canonicalFields := by
  induction ms with
  | nil => intro acc; rfl
  | cons m ms ih =>
      intro acc
      rw [List.foldl_cons, ih]
      exact korbitStep_canonicalFields vid chid acc.1 m

theorem bitmartFold_canonicalFields (vid chid : Nat)
    (ms : List (String × String × String × String)) :
    ∀ acc : DB × Nat,
      ((ms.foldl (bitmartFoldStep vid chid) acc).1).canonicalFields =
        acc.1.canonicalFields := by
  induction ms with
  | nil => intro acc; rfl
  | cons m ms ih =>
      intro acc
      rw [List.foldl_cons, ih]
      exact bitmartStep_canonicalFields vid chid acc.1 m

/-! ### C1 — idempotent registration -/

/-- C1: re-registering an identical mapping is a no-op reported as success.
For the bitmart `create_field_mapping`: starting from a state with no row for
the `(vendor, canonical field, path, channel)` key, the first call succeeds,
exactly one row with that key then exists, and the second identical call
returns the state unchanged with success. For the korbit creation loop:
running the same record through the loop a second time never inserts. -/
theorem claim_C1_idempotent_registration :
    (∀ (db : DB) (v c : Nat) (p : String) (ch : Nat) (et : String)
        (tr : Option String) (pr : Int),
       bitmartKeyCount db v c p ch = 0 →
       (bitmart_create_field_mapping db v c p ch et tr pr).2 = true ∧
       bitmartKeyCount (bitmart_create_field_mapping db v c p ch et tr pr).1
         v c p ch = 1 ∧
       bitmart_create_field_mapping
           (bitmart_create_field_mapping db v c p ch et tr pr).1 v c p ch et tr pr =
         ((bitmart_create_field_mapping db v c p ch et tr pr).1, true)) ∧
    (∀ (db : DB) (vid chid : Nat) (m : String × String × String),
       korbitStep vid chid (korbitStep vid chid db m).1 m =
         ((korbitStep vid chid db m).1, false)) := by
  constructor
  · intro db v c p ch et tr pr h
    have hfe : db.fieldMappings.filter (fun fm =>
        fm.vendorId == v && fm.canonicalFieldId == c &&
        fm.vendorFieldPath == p && fm.channelId == some ch) = [] :=
      List.length_eq_zero.mp h
    have hex : bitmartMappingExists db v c p ch = false := by
      rw [bitmartMappingExists, List.any_eq_false]
      intro fm hfm
      have := List.filter_eq_nil_iff.mp hfe fm hfm
      simpa using this
    refine ⟨?_, ?_, ?_⟩
    · simp [bitmart_create_field_mapping, hex]
    · simp [bitmart_create_field_mapping, hex, bitmartKeyCount,
        List.filter_append, hfe]
    · simp only [bitmart_create_field_mapping, hex, Bool.false_eq_true,
        if_false]
      rw [if_pos]
      simp [bitmartMappingExists, List.any_append]
  · intro db vid chid m
    cases hc : get_canonical_field_id db m.2.1 with
    | none => simp [korbitStep, hc]
    | some cid =>
        by_cases he : pathCanonicalMappingExists db vid m.1 cid = true
        · simp [korbitStep, hc, he]
        · have hins : pathCanonicalMappingExists
              (korbitStep vid chid db m).1 vid m.1 cid = true := by
            simp only [korbitStep, hc]
            rw [if_neg he]
            simp [pathCanonicalMappingExists, List.any_append]
          have hcf : get_canonical_field_id (korbitStep vid chid db m).1 m.2.1 =
              some cid := by
            rw [get_canonical_field_id_congr _ db
              (korbitStep_canonicalFields vid chid db m) m.2.1]
            exact hc
          set S := (korbitStep vid chid db m).1 with hS
          simp [korbitStep, hcf, hins]

/-- C1, witness: the bitmart part at the seeded bitmart state and the first
record of the script's batch. -/
theorem claim_C1_witness :
    (bitmart_create_field_mapping dbBitmart 1 2 "data[].last_price" 1 "ticker"
      (some "string_to_numeric") 10).2 = true ∧
    bitmartKeyCount (bitmart_create_field_mapping dbBitmart 1 2
      "data[].last_price" 1 "ticker" (some "string_to_numeric") 10).1
      1 2 "data[].last_price" 1 = 1 ∧
    bitmart_create_field_mapping
        (bitmart_create_field_mapping dbBitmart 1 2 "data[].last_price" 1
          "ticker" (some "string_to_numeric") 10).1
        1 2 "data[].last_price" 1 "ticker" (some "string_to_numeric") 10 =
      ((bitmart_create_field_mapping dbBitmart 1 2 "data[].last_price" 1
          "ticker" (some "string_to_numeric") 10).1, true) :=
  claim_C1_idempotent_registration.1 dbBitmart 1 2 "data[].last_price" 1
    "ticker" (some "string_to_numeric") 10 (by decide)

/-! ### C2 — priority resolution -/

theorem mappingBeats_refl (a : FieldMapping) : mappingBeats a a :=
  Or.inr ⟨rfl, le_refl _⟩

theorem mappingBeats_trans {a b c : FieldMapping} (h1 : mappingBeats a b)
    (h2 : mappingBeats b c) : mappingBeats a c := by
  unfold mappingBeats at h1 h2 ⊢
  omega

theorem mappingBeats_of_strict {b y : FieldMapping}
    (h : b.priority < y.priority ∨
      (b.priority = y.priority ∧ b.mappingId < y.mappingId)) :
    mappingBeats y b := by
  unfold mappingBeats
  omega

theorem mappingBeats_of_not_strict {b y : FieldMapping}
    (h : ¬(b.priority < y.priority ∨
      (b.priority = y.priority ∧ b.mappingId < y.mappingId))) :
    mappingBeats b y := by
  unfold mappingBeats
  omega

theorem resolveFoldl_spec (l : List FieldMapping) :
    ∀ (acc : Option FieldMapping) (fm : FieldMapping),
      l.foldl chooseBetter acc = some fm →
      (acc = some fm ∨ fm ∈ l) ∧ (∀ x ∈ l, mappingBeats fm x) ∧
        (∀ b, acc = some b → mappingBeats fm b) := by
  induction l with
  | nil =>
      intro acc fm h
      simp only [List.foldl_nil] at h
      refine ⟨Or.inl h, by simp, ?_⟩
      intro b hb
      rw [h] at hb
      cases Option.some.inj hb
      exact mappingBeats_refl fm
  | cons y ys ih =>
      intro acc fm h
      rw [List.foldl_cons] at h
      obtain ⟨h1, h2, h3⟩ := ih (chooseBetter acc y) fm h
      cases acc with
      | none =>
          have hy : mappingBeats fm y := h3 y rfl
          refine ⟨?_, ?_, ?_⟩
          · rcases h1 with h1 | h1
            · exact Or.inr (List.mem_cons.mpr (Or.inl (Option.some.inj h1).symm))
            · exact Or.inr (List.mem_cons_of_mem y h1)
          · intro x hx
            rcases List.mem_cons.mp hx with rfl | hx2
            · exact hy
            · exact h2 x hx2
          · intro b hb
            cases hb
      | some b0 =>
          by_cases hcnd : b0.priority < y.priority ∨
              (b0.priority = y.priority ∧ b0.mappingId < y.mappingId)
          · have hcb : chooseBetter (some b0) y = some y := by
              simp [chooseBetter, if_pos hcnd]
            rw [hcb] at h1 h3
            have hy : mappingBeats fm y := h3 y rfl
            have hb0 : mappingBeats fm b0 :=
              mappingBeats_trans hy (mappingBeats_of_strict hcnd)
            refine ⟨?_, ?_, ?_⟩
            · rcases h1 with h1 | h1
              · exact Or.inr (List.mem_cons.mpr (Or.inl (Option.some.inj h1).symm))
              · exact Or.inr (List.mem_cons_of_mem y h1)
            · intro x hx
              rcases List.mem_cons.mp hx with rfl | hx2
              · exact hy
              · exact h2 x hx2
            · intro b hb
              cases Option.some.inj hb
              exact hb0
          · have hcb : chooseBetter (some b0) y = some b0 := by
              simp only [chooseBetter]
              rw [if_neg hcnd]
            rw [hcb] at h1 h3
            have hb0 : mappingBeats fm b0 := h3 b0 rfl
            have hy : mappingBeats fm y :=
              mappingBeats_trans hb0 (mappingBeats_of_not_strict hcnd)
            refine ⟨?_, ?_, ?_⟩
            · rcases h1 with h1 | h1
              · exact Or.inl (by rw [Option.some.inj h1])
              · exact Or.inr (List.mem_cons_of_mem y h1)
            · intro x hx
              rcases List.mem_cons.mp hx with rfl | hx2
              · exact hy
              · exact h2 x hx2
            · intro b hb
              cases Option.some.inj hb
              exact hb0

/-- C2, counterexample: after the bitmart script runs against a seeded
catalog, the `data[].close_24h -> last_price` mapping carries priority 10
(not 0, since the script hardcodes `priority=10` for every record), and
`resolve` on `(bitmart, ticker, websocket, last_price)` returns the
`data[].close_24h` path — not `data[].last_price` — by the
most-recently-created tie-break. -/
theorem claim_C2_counterexample :
    (resolveField (map_bitmart_ticker_fields dbBitmart).1 1 "ticker"
        SourceType.websocket 2).map FieldMapping.vendorFieldPath ≠
      some "data[].last_price" ∧
    (resolveField (map_bitmart_ticker_fields dbBitmart).1 1 "ticker"
        SourceType.websocket 2).map FieldMapping.vendorFieldPath =
      some "data[].close_24h" ∧
    get_canonical_field_id dbBitmart "last_price" = some 2 ∧
    ((map_bitmart_ticker_fields dbBitmart).1.fieldMappings.filter fun fm =>
        fm.vendorFieldPath == "data[].close_24h").map FieldMapping.priority =
      [10] := by
  refine ⟨by decide, by decide, by decide, by decide⟩

/-- C2 (amended): the resolver (modelled from the spec, as `resolve` is not
among the sources under src/) returns a candidate mapping that beats every
candidate — strictly higher priority, or equal priority and created no
earlier. In the bitmart ticker scenario the script actually produces, both
the `last_price` and `close_24h` vendor paths are registered at priority 10,
so the tie-break selects the most recently created mapping, the
`data[].close_24h` path. -/
theorem claim_C2_amended :
    (∀ (db : DB) (vid : Nat) (et : String) (st : SourceType) (cid : Nat)
        (fm : FieldMapping),
       resolveField db vid et st cid = some fm →
       fm ∈ resolveCandidates db vid et st cid ∧
         ∀ x ∈ resolveCandidates db vid et st cid, mappingBeats fm x) ∧
    ((resolveField (map_bitmart_ticker_fields dbBitmart).1 1 "ticker"
        SourceType.websocket 2) = some bitmartClose24hRow ∧
      (resolveCandidates (map_bitmart_ticker_fields dbBitmart).1 1 "ticker"
        SourceType.websocket 2).map FieldMapping.priority = [10, 10]) := by
  constructor
  · intro db vid et st cid fm h
    unfold resolveField at h
    obtain ⟨h1, h2, _⟩ := resolveFoldl_spec _ none fm h
    refine ⟨?_, h2⟩
    rcases h1 with h1 | h1
    · cases h1
    · exact h1
  · exact ⟨by decide, by decide⟩

/-- C2, witness: the resolver dominance property at the post-script bitmart
state. -/
theorem claim_C2_witness :
    bitmartClose24hRow ∈ resolveCandidates
      (map_bitmart_ticker_fields dbBitmart).1 1 "ticker" SourceType.websocket 2 ∧
    ∀ x ∈ resolveCandidates (map_bitmart_ticker_fields dbBitmart).1 1 "ticker"
        SourceType.websocket 2, mappingBeats bitmartClose24hRow x :=
  claim_C2_amended.1 (map_bitmart_ticker_fields dbBitmart).1 1 "ticker"
    SourceType.websocket 2 bitmartClose24hRow (by decide)

/-! ### C7 — exactly-one-source invariant -/

/-- C7: the code violates the claim. At a zaif state whose
`/api/1/ticker/{currency_pair}` endpoint exists but whose `last_price`
endpoint does not, the real run inserts the `last_price` mapping with BOTH
`endpoint_id` and `channel_id` NULL — zero source references instead of
exactly one — while the other six inserted rows each reference exactly the
vendor's ticker endpoint. -/
theorem claim_C7_zaif_null_source :
    ((zaif_create_mappings dbZaif false).1.fieldMappings.filter fun fm =>
        fm.vendorFieldPath == "last_price").map
        (fun fm => (fm.endpointId, fm.channelId)) = [(none, none)] ∧
    (zaif_create_mappings dbZaif false).2 = 7 ∧
    ((zaif_create_mappings dbZaif false).1.fieldMappings.filter fun fm =>
        fm.vendorFieldPath != "last_price").all
        (fun fm => fm.endpointId == some 1 && fm.channelId == none) = true := by
  refine ⟨by decide, by decide, by decide⟩

/-! ### C8 — dry-run equivalence and purity -/

/-- A real korbit run outcome is a missing-canonical skip exactly when the
dry run reports canonical-field-not-found for that record: the canonical
lookup is stable under the loop's own inserts. -/
theorem korbitOutcomes_missing (vid chid : Nat)
    (ms : List (String × String × String)) :
    ∀ db : DB,
      (korbitOutcomes vid chid db ms).map
          (fun o => o == MappingOutcome.missingCanonical) =
        ms.map fun m => (get_canonical_field_id db m.2.1).isNone := by
  induction ms with
  | nil => intro db; rfl
  | cons m ms ih =>
      intro db
      simp only [korbitOutcomes, List.map_cons]
      congr 1
      · unfold korbitStepOutcome
        cases get_canonical_field_id db m.2.1 with
        | none => rfl
        | some cid =>
            by_cases he : pathCanonicalMappingExists db vid m.1 cid = true
            · simp [he]
            · simp [he]
      · rw [ih (korbitStep vid chid db m).1]
        refine List.map_congr_left ?_
        intro a _
        rw [get_canonical_field_id_congr _ db
          (korbitStep_canonicalFields vid chid db m) a.2.1]

/-- C8, counterexample: on a state that already stores the proposed
`(korbit, "last", last_price)` mapping, the dry run reports exactly one
record as would-be-created, while the real run creates nothing (it skips the
record as already existing) — the reported would-be-created set differs from
the real created set. Both runs leave the state unchanged here. -/
theorem claim_C8_counterexample :
    (korbitDryRunDecisions dbKorbitPre).countP (fun d => d.2.2.isSome) = 1 ∧
    korbit_create_mappings dbKorbitPre true = (dbKorbitPre, 0) ∧
    korbit_create_mappings dbKorbitPre false = (dbKorbitPre, 0) := by
  refine ⟨by decide, by decide, by decide⟩

/-- C8 (amended): the korbit dry run never mutates the state, and it agrees
with the real run on exactly which records are skipped for a missing
canonical field; every other record it reports as would-be-created, which
the real run either creates or skips as already existing (the dry run
performs no already-exists check). The bitmart dry-run field list is a
permutation of the real batch (the same 13 `(path, canonical)` pairs in a
different order). -/
theorem claim_C8_amended :
    (∀ db : DB, korbit_create_mappings db true = (db, 0)) ∧
    (∀ (vid chid : Nat) (db : DB) (ms : List (String × String × String)),
       (korbitOutcomes vid chid db ms).map
           (fun o => o == MappingOutcome.missingCanonical) =
         ms.map fun m => (get_canonical_field_id db m.2.1).isNone) ∧
    (∀ (vid chid : Nat) (db : DB),
       (korbitOutcomes vid chid db korbitProposedMappings).map
           (fun o => o == MappingOutcome.missingCanonical) =
         (korbitDryRunDecisions db).map fun d => d.2.2.isNone) ∧
    (bitmartDryRunList.map fun m => (m.1, m.2.1)).Perm
      (bitmartTickerMappings.map fun m => (m.1, m.2.1)) := by
  refine ⟨?_, ?_, ?_, ?_⟩
  · intro db
    unfold korbit_create_mappings
    cases get_vendor_id db "korbit" with
    | none => rfl
    | some vid =>
        show (if (korbit_get_websocket_channels db vid).isEmpty = true
              then ((db, 0) : DB × Nat)
              else
                match (korbit_get_websocket_channels db vid).find?
                    (fun c => strContainsSub (strToLower c.channelName) "ticker") with
                | none => (db, 0)
                | some ch =>
                    if true = true then (db, 0)
                    else korbitProcess vid ch.channelId db korbitProposedMappings) =
            (db, 0)
        by_cases hch : (korbit_get_websocket_channels db vid).isEmpty = true
        · rw [if_pos hch]
        · rw [if_neg hch]
          cases (korbit_get_websocket_channels db vid).find?
              (fun c => strContainsSub (strToLower c.channelName) "ticker") with
          | none => rfl
          | some ch => rfl
  · intro vid chid db ms
    exact korbitOutcomes_missing vid chid ms db
  · intro vid chid db
    rw [korbitOutcomes_missing vid chid korbitProposedMappings db]
    simp [korbitDryRunDecisions, List.map_map]
  · decide

/-! ### C9 — skip-and-continue on unknown canonical field -/

/-- C9: in both the korbit and the bitmart batch loops, a record whose
canonical field name does not resolve contributes nothing: processing the
batch equals processing the batch with that record removed, so no row is
inserted for it and every subsequent record is still processed; the loop is
a total function returning the state and summary count, never an
exception. -/
theorem claim_C9_skip_and_continue :
    (∀ (vid chid : Nat) (db : DB)
        (before after : List (String × String × String))
        (r : String × String × String),
       get_canonical_field_id db r.2.1 = none →
       korbitProcess vid chid db (before ++ r :: after) =
         korbitProcess vid chid db (before ++ after)) ∧
    (∀ (vid chid : Nat) (db : DB)
        (before after : List (String × String × String × String))
        (r : String × String × String × String),
       get_canonical_field_id db r.2.1 = none →
       bitmartProcess vid chid db (before ++ r :: after) =
         bitmartProcess vid chid db (before ++ after)) := by
  constructor
  · intro vid chid db before after r h
    unfold korbitProcess
    rw [List.foldl_append, List.foldl_append, List.foldl_cons]
    have hl : get_canonical_field_id
        (before.foldl (korbitFoldStep vid chid) (db, 0)).1 r.2.1 = none := by
      rw [get_canonical_field_id_congr _ db
        (korbitFold_canonicalFields vid chid before (db, 0)) r.2.1]
      exact h
    congr 1
    set acc := before.foldl (korbitFoldStep vid chid) ((db, 0) : DB × Nat) with hacc
    have hstep : korbitStep vid chid acc.1 r = (acc.1, false) := by
      unfold korbitStep
      rw [hl]
    unfold korbitFoldStep
    rw [hstep]
    simp
  · intro vid chid db before after r h
    unfold bitmartProcess
    rw [List.foldl_append, List.foldl_append, List.foldl_cons]
    have hl : get_canonical_field_id
        (before.foldl (bitmartFoldStep vid chid) (db, 0)).1 r.2.1 = none := by
      rw [get_canonical_field_id_congr _ db
        (bitmartFold_canonicalFields vid chid before (db, 0)) r.2.1]
      exact h
    congr 1
    set acc := before.foldl (bitmartFoldStep vid chid) ((db, 0) : DB × Nat) with hacc
    have hstep : bitmartStep vid chid acc.1 r = (acc.1, false) := by
      unfold bitmartStep
      rw [hl]
    unfold bitmartFoldStep
    rw [hstep]
    simp

/-- C9, witness: the korbit batch at a state where only `last_price` exists;
dropping the unresolvable `bid_price` record leaves the run unchanged. -/
theorem claim_C9_witness :
    korbitProcess 1 1 dbKorbitPre
        ([("last", "last_price", "string_to_numeric")] ++
          ("bid", "bid_price", "string_to_numeric") ::
            [("ask", "ask_price", "string_to_numeric")]) =
      korbitProcess 1 1 dbKorbitPre
        ([("last", "last_price", "string_to_numeric")] ++
          [("ask", "ask_price", "string_to_numeric")]) :=
  claim_C9_skip_and_continue.1 1 1 dbKorbitPre _ _ _ (by decide)

/-! ### C10 — the two ticker-coverage computations -/

theorem demoTickerJoinRows_name (db : DB)
    (r : CanonicalDataType × DataTypeField × CanonicalField)
    (hr : r ∈ demoTickerJoinRows db) : r.1.dataTypeName = "ticker" := by
  simp only [demoTickerJoinRows, List.mem_flatMap, List.mem_filterMap] at hr
  obtain ⟨dt, _, dtf, _, cf, _, hsome⟩ := hr
  by_cases hc : dt.dataTypeId = dtf.dataTypeId ∧
      dtf.canonicalFieldId = cf.canonicalFieldId ∧ dt.dataTypeName = "ticker"
  · rw [if_pos hc] at hsome
    cases Option.some.inj hsome
    exact hc.2.2
  · rw [if_neg hc] at hsome
    cases hsome

/-- C10, counterexample: the same stored state — one required canonical
ticker field, one vendor, one active websocket ticker mapping to it — yields
100.0% from `update_status.py` and 0.0% from the demo's coverage query. The
two computations disagree. -/
theorem claim_C10_counterexample :
    get_exchange_ticker_coverage dbOneRow = [("vex", 1, 100)] ∧
    demo_verify_ticker_coverage dbOneRow = [("vex", 1, 0, 0)] := by
  refine ⟨by decide, by decide⟩

/-- C10 (amended): the demo's `fields_mapped` (distinct canonical fields in
the ticker `DataTypeField` set with an active rest mapping) never exceeds
`update_status.py`'s per-vendor count of raw ticker mapping rows, and the
two computations disagree in general — a single active websocket ticker
mapping gives 100.0% against 0.0% on the same state. -/
theorem claim_C10_amended :
    (∀ (db : DB) (vid dtid : Nat),
       demoFieldsMapped db vid dtid ≤
         (db.fieldMappings.filter fun fm =>
           fm.vendorId == vid && fm.entityType == "ticker").length) ∧
    (get_exchange_ticker_coverage dbOneRow = [("vex", 1, 100)] ∧
     demo_verify_ticker_coverage dbOneRow = [("vex", 1, 0, 0)]) := by
  constructor
  · intro db vid dtid
    have key : dedupKeepFirst []
        ((demoTickerJoinRows db).filterMap fun r =>
          if r.1.dataTypeId = dtid ∧
             demoHasActiveRestMapping db vid r.1.dataTypeName
               r.2.2.canonicalFieldId = true
          then some r.2.2.canonicalFieldId else none) ⊆
        (db.fieldMappings.filter fun fm =>
          fm.vendorId == vid && fm.entityType == "ticker").map
          FieldMapping.canonicalFieldId := by
      intro x hx
      have hx0 := ((mem_dedupKeepFirst x _ []).mp hx).1
      rcases List.mem_filterMap.mp hx0 with ⟨r, hr, hsome⟩
      by_cases hc : r.1.dataTypeId = dtid ∧
          demoHasActiveRestMapping db vid r.1.dataTypeName
            r.2.2.canonicalFieldId = true
      · rw [if_pos hc] at hsome
        cases Option.some.inj hsome
        have hname := demoTickerJoinRows_name db r hr
        have hany := hc.2
        unfold demoHasActiveRestMapping at hany
        rcases List.any_eq_true.mp hany with ⟨fm, hfm, hp⟩
        simp only [Bool.and_eq_true, beq_iff_eq] at hp
        obtain ⟨⟨⟨⟨ha, hb⟩, hact⟩, hent⟩, hsrc⟩ := hp
        refine List.mem_map.mpr ⟨fm, List.mem_filter.mpr ⟨hfm, ?_⟩, hb⟩
        simp only [Bool.and_eq_true, beq_iff_eq]
        exact ⟨ha, hent.trans hname⟩
      · rw [if_neg hc] at hsome
        cases hsome
    have hsp := List.subperm_of_subset (nodup_dedupKeepFirst _ []) key
    calc demoFieldsMapped db vid dtid
        ≤ ((db.fieldMappings.filter fun fm =>
            fm.vendorId == vid && fm.entityType == "ticker").map
            FieldMapping.canonicalFieldId).length := hsp.length_le
      _ = (db.fieldMappings.filter fun fm =>
            fm.vendorId == vid && fm.entityType == "ticker").length :=
          List.length_map _ _
  · exact ⟨by decide, by decide⟩

end CryptoCatalog
